import Mathlib

/-!
Shallow embedding of the EROS hierarchical orchestration core
(`eros_core.py`, `kimi_integration.py`): worker lifecycle, PAD health
analyzer, supervisor monitoring/intervention, and coordinator decisions.
Floating-point quantities are modelled as rationals; `time.time()` is
modelled by an explicit `now` parameter passed to each operation that
reads the clock.
-/

namespace Eros

/-- Agent execution states (`AgentState` in `eros_core.py`). -/
inductive AgentState where
  | idle
  | running
  | stalled
  | completed
  | failed
  | killed
deriving DecidableEq, Repr

/-- One entry of a worker's output buffer.  The source stores dicts with
a `timestamp`, a `content` string, and optionally a `step` index (from
`execute_task`) or a `terminal` flag (from `kill`). -/
structure OutputEvent where
  timestamp : ℚ
  content : String
  step : Option Nat := none
  terminal : Bool := false
deriving DecidableEq, Repr

/-- A task dict: the keys read anywhere in the source
(`id`, `goal`, `estimated_steps`, `inject_failure`, `context_correction`,
`previous_attempt`). -/
structure Task where
  id : Option String := none
  goal : Option String := none
  estimated_steps : Option Nat := none
  inject_failure : Bool := false
  context_correction : Option String := none
  previous_attempt : Option String := none
deriving DecidableEq, Repr

/-- PAD (Pleasure-Arousal-Dominance) telemetry vector. -/
structure PADTelemetry where
  pleasure : ℚ
  arousal : ℚ
  dominance : ℚ
deriving DecidableEq, Repr

/-- `PADTelemetry.is_healthy`: pleasure > 0.2 and arousal < 0.8 and
dominance > 0.3. -/
def PADTelemetry.is_healthy (p : PADTelemetry) : Bool :=
  decide (p.pleasure > 0.2) && decide (p.arousal < 0.8) && decide (p.dominance > 0.3)

/-- Capacity of an intern's `output_buffer` deque (`maxlen=100`). -/
def bufferCapacity : Nat := 100

/-- Append to a bounded deque: on overflow the oldest entries are dropped
from the front (`collections.deque(maxlen=100)` semantics). -/
def pushEvent (buf : List OutputEvent) (e : OutputEvent) : List OutputEvent :=
  let b := buf ++ [e]
  b.drop (b.length - bufferCapacity)

/-- Tier-3 execution agent (`InternAgent`). -/
structure InternAgent where
  agent_id : String
  specialty : String
  manager_id : String
  state : AgentState := .idle
  output_buffer : List OutputEvent := []
  task : Option Task := none
  start_time : Option ℚ := none
deriving DecidableEq, Repr

/-- `InternAgent.kill(reason)`: unconditionally sets the state to KILLED
and appends one terminal output event carrying the reason. -/
def InternAgent.kill (i : InternAgent) (now : ℚ) (reason : String) : InternAgent :=
  { i with
    state := .killed,
    output_buffer := pushEvent i.output_buffer
      { timestamp := now, content := "KILLED: " ++ reason, terminal := true } }

/-- `InternAgent.get_recent_output(n)`: the `n` most recent buffer entries
(Python `list(buffer)[-n:]`). -/
def InternAgent.get_recent_output (i : InternAgent) (n : Nat) : List OutputEvent :=
  i.output_buffer.drop (i.output_buffer.length - n)

/-- The content of the simulated work output produced at a given 0-based
step index inside `InternAgent.execute_task`. -/
def stepContent (specialty goal : String) (step : Nat) : String :=
  "Step " ++ toString (step + 1) ++ ": Processing " ++ specialty ++ " for " ++ goal

/-- The `for step in range(...)` loop body of `InternAgent.execute_task`:
threads the output buffer and the result's `outputs` list, and reports
whether the injected failure at step index 2 fired. -/
def execLoop (now : ℚ) (specialty goal : String) (inject : Bool) :
    Nat → Nat → List OutputEvent → List String → List OutputEvent × List String × Bool
  | 0, _, buf, outs => (buf, outs, false)
  | n + 1, step, buf, outs =>
    let content := stepContent specialty goal step
    let buf' := pushEvent buf { timestamp := now, content := content, step := some (step + 1) }
    let outs' := outs ++ [content]
    if inject && step == 2 then (buf', outs', true)
    else execLoop now specialty goal inject n (step + 1) buf' outs'

/-- The result dict returned by `InternAgent.execute_task`. -/
structure ExecResult where
  agent_id : String
  task_id : Option String
  outputs : List String
  status : String
  error : Option String := none
  duration : Option ℚ := none
deriving DecidableEq, Repr

/-- The entry mutation of `InternAgent.execute_task`: set the task,
force the state to RUNNING, and stamp the start time — performed
unconditionally, whatever the previous state. -/
def InternAgent.execute_task_entry (i : InternAgent) (task : Task) (now : ℚ) : InternAgent :=
  { i with task := some task, state := .running, start_time := some now }

/-- `InternAgent.execute_task(task, ...)`: runs the simulated step loop,
ending FAILED on the injected failure (step index 2) and COMPLETED
otherwise.  All clock reads within the call are modelled by `now`. -/
def InternAgent.execute_task (i : InternAgent) (task : Task) (now : ℚ) :
    ExecResult × InternAgent :=
  let i1 := i.execute_task_entry task now
  let steps := task.estimated_steps.getD 5
  let r := execLoop now i1.specialty (task.goal.getD "unknown") task.inject_failure
    steps 0 i1.output_buffer []
  if r.2.2 then
    ({ agent_id := i.agent_id, task_id := task.id, outputs := r.2.1, status := "error",
       error := some "Simulated failure: hallucination detected" },
     { i1 with output_buffer := r.1, state := .failed })
  else
    ({ agent_id := i.agent_id, task_id := task.id, outputs := r.2.1, status := "completed",
       duration := some 0 },
     { i1 with output_buffer := r.1, state := .completed })

/-- Python whitespace `str.split()`: split on whitespace, discarding
empty fragments. -/
def splitWords (s : String) : List String :=
  (s.split (fun c => c.isWhitespace)).filter (fun w => w ≠ "")

/-- Substring containment on character lists (Python `needle in hay`). -/
def listContainsSub (needle : List Char) : List Char → Bool
  | [] => needle.isEmpty
  | c :: t => needle.isPrefixOf (c :: t) || listContainsSub needle t

/-- Substring containment on strings (Python `needle in hay`). -/
def strContainsSub (hay needle : String) : Bool :=
  listContainsSub needle.data hay.data

/-- Error signals scanned for by the arousal heuristic. -/
def errorSignals : List String := ["error", "failed", "retry", "trying again", "unable"]

/-- Uncertainty signals scanned for by the dominance heuristic. -/
def uncertainSignals : List String := ["maybe", "might", "uncertain", "not sure", "trying"]

/-- Confidence signals scanned for by the dominance heuristic. -/
def confidentSignals : List String := ["completed", "success", "done", "processed"]

/-- `PADAnalyzer.analyze_output(outputs, task_goal)`: the keyword-overlap,
error/repetition, and confidence heuristics of the source, over exact
rational arithmetic. -/
def analyze_output (outputs : List OutputEvent) (task_goal : String) : PADTelemetry :=
  if outputs = [] then ⟨0, 0, 0⟩
  else
    let texts := outputs.map (fun o => o.content)
    let combined_text := (String.intercalate " " texts).toLower
    let goal_keywords := (splitWords task_goal.toLower).dedup
    let output_keywords := (splitWords combined_text).dedup
    let overlap := (goal_keywords.filter (fun w => w ∈ output_keywords)).length
    let pleasure : ℚ := min 1 ((overlap : ℚ) / (max goal_keywords.length 1 : ℚ))
    let error_count := (errorSignals.filter (fun s => strContainsSub combined_text s)).length
    let repetition_score : ℚ :=
      if 3 ≤ texts.length then
        let recent := texts.drop (texts.length - 3)
        if recent.dedup.length < recent.length then 0.4 else 0
      else 0
    let arousal : ℚ := min 1 ((error_count : ℚ) * 0.2 + repetition_score)
    let uncertain_count :=
      (uncertainSignals.filter (fun s => strContainsSub combined_text s)).length
    let confident_count :=
      (confidentSignals.filter (fun s => strContainsSub combined_text s)).length
    let dominance : ℚ :=
      max 0 (min 1 (((confident_count : ℚ) - (uncertain_count : ℚ) * 0.5) / 5))
    ⟨pleasure, arousal, dominance⟩

/-- `EROSManager._diagnose_failure(pad)`: first strict-comparison match
wins. -/
def diagnose_failure (pad : PADTelemetry) : String :=
  if pad.pleasure < 0.2 then "Low goal alignment - task divergence detected"
  else if pad.arousal > 0.8 then "High arousal - agent stalling or infinite retry loop"
  else if pad.dominance < 0.3 then "Low dominance - agent showing excessive uncertainty"
  else "Unknown failure mode"

/-- An alert dict returned by a monitoring pass
(`alert` is `"INTERVENTION_REQUIRED"` or `"TIMEOUT"`). -/
structure Alert where
  manager_id : String
  intern_id : String
  alert : String
  telemetry : PADTelemetry
  reason : String
  timestamp : ℚ
deriving DecidableEq, Repr

/-- An intervention audit record appended to a manager's `status_log`. -/
structure InterventionRecord where
  timestamp : ℚ
  manager_id : String
  intern_id : String
  action : String
  reason : String
  task_id : Option String
deriving DecidableEq, Repr

/-- Tier-2 supervisor state (`EROSManager`); the belief-registry handle
is omitted, since no supervisor operation reads it back. -/
structure EROSManager where
  manager_id : String
  interns : List InternAgent := []
  max_interns : Nat := 10
  status_log : List InterventionRecord := []
deriving DecidableEq, Repr

/-- `EROSManager.spawn_intern(specialty)`: at capacity the call fails
(`ValueError`) and the manager is unchanged; otherwise a fresh IDLE
intern is appended. -/
def EROSManager.spawn_intern (m : EROSManager) (specialty : String) :
    Except String InternAgent × EROSManager :=
  if m.max_interns ≤ m.interns.length then
    (.error ("Manager " ++ m.manager_id ++ " at capacity"), m)
  else
    let agent_id := m.manager_id ++ "_intern_" ++ toString m.interns.length
    let intern : InternAgent :=
      { agent_id := agent_id, specialty := specialty, manager_id := m.manager_id }
    (.ok intern, { m with interns := m.interns ++ [intern] })

/-- Python truthiness of an optional float (`None` and `0.0` are falsy). -/
def truthyTime : Option ℚ → Bool
  | none => false
  | some t => decide (t ≠ 0)

/-- `EROSManager.monitor_intern(intern)`: skip non-running interns, skip
the 30-second warm-up window, skip interns with no recent output or no
task, else PAD-analyze the last 5 outputs and alert when unhealthy.
There is no max-runtime check in this version. -/
def EROSManager.monitor_intern (m : EROSManager) (now : ℚ) (intern : InternAgent) :
    Option Alert :=
  if intern.state ≠ .running then none
  else if (match intern.start_time with
           | some st => truthyTime (some st) && decide (now - st < 30)
           | none => false) then none
  else
    let recent_outputs := intern.get_recent_output 5
    if recent_outputs = [] then none
    else match intern.task with
      | none => none
      | some task =>
        let pad := analyze_output recent_outputs (task.goal.getD "")
        if pad.is_healthy then none
        else some
          { manager_id := m.manager_id, intern_id := intern.agent_id,
            alert := "INTERVENTION_REQUIRED", telemetry := pad,
            reason := diagnose_failure pad, timestamp := now }

/-- `EROSManager.intervene(intern, reason)`: kill the intern and append
an audit record. -/
def EROSManager.intervene (m : EROSManager) (now : ℚ) (intern : InternAgent)
    (reason : String) : InterventionRecord × InternAgent × EROSManager :=
  let killed := intern.kill now reason
  let record : InterventionRecord :=
    { timestamp := now, manager_id := m.manager_id, intern_id := intern.agent_id,
      action := "SIG_KILL", reason := reason,
      task_id := intern.task.bind (fun t => t.id) }
  (record, killed, { m with status_log := m.status_log ++ [record] })

/-- The corrected task the source builds inside
`respawn_with_correction`: a copy of the failed task plus the correction
text and a provenance link to the failed worker. -/
def corrected_task_of (failed : InternAgent) (correction : String) : Option Task :=
  failed.task.map (fun t =>
    { t with context_correction := some correction, previous_attempt := some failed.agent_id })

/-- `EROSManager.respawn_with_correction(failed_intern, correction)`:
spawns a same-specialty intern; the corrected task is computed but —
exactly as in the source — never attached to the new intern. -/
def EROSManager.respawn_with_correction (m : EROSManager) (failed_intern : InternAgent)
    (correction : String) : Except String InternAgent × EROSManager :=
  match m.spawn_intern failed_intern.specialty with
  | (.error e, m') => (.error e, m')
  | (.ok new_intern, m') =>
    let _corrected_task := corrected_task_of failed_intern correction
    (.ok new_intern, m')

/-- The status pulse dict produced by `EROSManager.get_status_pulse`. -/
structure StatusPulse where
  manager_id : String
  timestamp : ℚ
  interns_total : Nat
  interns_active : Nat
  interns_completed : Nat
  interns_failed : Nat
  interventions : Nat
  health : String
deriving DecidableEq, Repr

/-- `EROSManager.get_status_pulse()`: per-state counts, the intervention
count, and a derived health label — no output content, no goal text. -/
def EROSManager.get_status_pulse (m : EROSManager) (now : ℚ) : StatusPulse :=
  let active_interns := m.interns.countP (fun i => i.state == AgentState.running)
  let completed_interns := m.interns.countP (fun i => i.state == AgentState.completed)
  let failed_interns := m.interns.countP
    (fun i => i.state == AgentState.failed || i.state == AgentState.killed)
  { manager_id := m.manager_id, timestamp := now,
    interns_total := m.interns.length,
    interns_active := active_interns,
    interns_completed := completed_interns,
    interns_failed := failed_interns,
    interventions := m.status_log.length,
    health := if failed_interns = 0 then "healthy" else "degraded" }

/-- Supervisor state for the live-backend variant
(`KimiEROSManager` in `kimi_integration.py`); Kimi intern agents carry
the same monitored fields as simulated interns, so they share the
`InternAgent` record here (their string states mapped onto
`AgentState`). -/
structure KimiEROSManager where
  manager_id : String
  interns : List InternAgent := []
  max_interns : Nat := 10
  status_log : List InterventionRecord := []
deriving DecidableEq, Repr

/-- `KimiEROSManager._diagnose_failure(pad)` (its strings differ slightly
from the core version). -/
def kimi_diagnose_failure (pad : PADTelemetry) : String :=
  if pad.pleasure < 0.2 then "Low goal alignment - task divergence detected"
  else if pad.arousal > 0.8 then "High arousal - agent stalling or infinite retry"
  else if pad.dominance < 0.3 then "Low dominance - excessive uncertainty"
  else "Unknown failure mode"

/-- `KimiEROSManager.monitor_intern(intern)`: like the core version but
with the max-runtime watchdog first — a running intern past 600 seconds
is flagged TIMEOUT before any output or health check. -/
def KimiEROSManager.monitor_intern (m : KimiEROSManager) (now : ℚ) (intern : InternAgent) :
    Option Alert :=
  if intern.state ≠ .running then none
  else if (match intern.start_time with
           | some st => truthyTime (some st) && decide (600 < now - st)
           | none => false) then
    some { manager_id := m.manager_id, intern_id := intern.agent_id,
           alert := "TIMEOUT", telemetry := ⟨0, 1, 0⟩,
           reason := "Agent exceeded 10-minute execution timeout", timestamp := now }
  else if (match intern.start_time with
           | some st => truthyTime (some st) && decide (now - st < 30)
           | none => false) then none
  else
    let recent_outputs := intern.get_recent_output 5
    if recent_outputs = [] then none
    else match intern.task with
      | none => none
      | some task =>
        let pad := analyze_output recent_outputs (task.goal.getD "")
        if pad.is_healthy then none
        else some
          { manager_id := m.manager_id, intern_id := intern.agent_id,
            alert := "INTERVENTION_REQUIRED", telemetry := pad,
            reason := kimi_diagnose_failure pad, timestamp := now }

/-- Aggregate metrics block of a strategic decision. -/
structure DecisionMetrics where
  total_interns : Nat
  active : Nat
  completed : Nat
  failed : Nat
  completion_rate : ℚ
  failure_rate : ℚ
  interventions : Nat
deriving DecidableEq, Repr

/-- A strategic decision record (`SovereignOrchestrator`). -/
structure StrategicDecision where
  timestamp : ℚ
  turn : Nat
  metrics : DecisionMetrics
  action : String
  reason : String
deriving DecidableEq, Repr

/-- The summed completion rate of `make_strategic_decision`
(0 when there are no interns). -/
def aggregate_completion_rate (pulses : List StatusPulse) : ℚ :=
  let total : Nat := (pulses.map (fun p => p.interns_total)).sum
  let completed : Nat := (pulses.map (fun p => p.interns_completed)).sum
  if 0 < total then (completed : ℚ) / (total : ℚ) else 0

/-- The summed failure rate of `make_strategic_decision`
(0 when there are no interns). -/
def aggregate_failure_rate (pulses : List StatusPulse) : ℚ :=
  let total : Nat := (pulses.map (fun p => p.interns_total)).sum
  let failed : Nat := (pulses.map (fun p => p.interns_failed)).sum
  if 0 < total then (failed : ℚ) / (total : ℚ) else 0

/-- `SovereignOrchestrator.make_strategic_decision(pulses)`: sum the
pulse counts, derive the two rates, and pick the action by priority
(failure rate first). -/
def make_strategic_decision (now : ℚ) (turn : Nat) (pulses : List StatusPulse) :
    StrategicDecision :=
  let total_interns := (pulses.map (fun p => p.interns_total)).sum
  let total_active := (pulses.map (fun p => p.interns_active)).sum
  let total_completed := (pulses.map (fun p => p.interns_completed)).sum
  let total_failed := (pulses.map (fun p => p.interns_failed)).sum
  let total_interventions := (pulses.map (fun p => p.interventions)).sum
  let completion_rate := aggregate_completion_rate pulses
  let failure_rate := aggregate_failure_rate pulses
  let metrics : DecisionMetrics :=
    { total_interns := total_interns, active := total_active,
      completed := total_completed, failed := total_failed,
      completion_rate := completion_rate, failure_rate := failure_rate,
      interventions := total_interventions }
  if failure_rate > 0.3 then
    { timestamp := now, turn := turn, metrics := metrics,
      action := "PAUSE_AND_RECALIBRATE",
      reason := "High failure rate detected - belief constraints may be unclear" }
  else if completion_rate > 0.8 then
    { timestamp := now, turn := turn, metrics := metrics,
      action := "ADVANCE_PHASE",
      reason := "Swarm performing well - advance to next phase" }
  else
    { timestamp := now, turn := turn, metrics := metrics,
      action := "CONTINUE_MONITORING",
      reason := "Swarm operating within normal parameters" }

/-- Number of terminal events in an output buffer. -/
def countTerminal (buf : List OutputEvent) : Nat :=
  (buf.filter (fun e => e.terminal)).length

/-- Below 100 entries the bounded deque append is a plain append. -/
theorem pushEvent_of_le (buf : List OutputEvent) (e : OutputEvent)
    (h : buf.length ≤ 99) : pushEvent buf e = buf ++ [e] := by
  simp only [pushEvent, bufferCapacity]
  have hz : (buf ++ [e]).length - 100 = 0 := by
    simp only [List.length_append, List.length_singleton]
    omega
  rw [hz, List.drop_zero]

/-- Claim C4: the health analyzer is total, and each component of the
returned Health Vector lies in the closed interval [0,1], for every
output list and goal string. -/
theorem C4_analyzer_bounded (outputs : List OutputEvent) (task_goal : String) :
    0 ≤ (analyze_output outputs task_goal).pleasure ∧
    (analyze_output outputs task_goal).pleasure ≤ 1 ∧
    0 ≤ (analyze_output outputs task_goal).arousal ∧
    (analyze_output outputs task_goal).arousal ≤ 1 ∧
    0 ≤ (analyze_output outputs task_goal).dominance ∧
    (analyze_output outputs task_goal).dominance ≤ 1 := by
  rcases eq_or_ne outputs [] with h | h
  · simp [analyze_output, h]
  · simp only [analyze_output, if_neg h]
    refine ⟨?_, ?_, ?_, ?_, ?_, ?_⟩
    · exact le_min (by norm_num) (by positivity)
    · exact min_le_left _ _
    · refine le_min (by norm_num) (add_nonneg (by positivity) ?_)
      split_ifs <;> norm_num
    · exact min_le_left _ _
    · exact le_max_left _ _
    · exact max_le (by norm_num) (min_le_left _ _)

/-- Claim C5: the analyzer maps an empty output list to (0,0,0) for any
goal; `is_healthy` holds exactly when pleasure > 0.2, arousal < 0.8 and
dominance > 0.3; and (0,0,0) is not healthy (the pleasure bound is
strict). -/
theorem C5_empty_output_unhealthy (goal : String) (v : PADTelemetry) :
    analyze_output [] goal = ⟨0, 0, 0⟩ ∧
    (v.is_healthy = true ↔ (0.2 < v.pleasure ∧ v.arousal < 0.8 ∧ 0.3 < v.dominance)) ∧
    PADTelemetry.is_healthy ⟨0, 0, 0⟩ = false := by
  refine ⟨by simp [analyze_output], ?_, ?_⟩
  · simp [PADTelemetry.is_healthy, Bool.and_eq_true, decide_eq_true_eq, gt_iff_lt, and_assoc]
  · have h : ¬((0:ℚ) > 0.2) := by norm_num
    simp [PADTelemetry.is_healthy, h]

/-- Claim C9 counterexample: the Health Vector (0.2, 0, 0.5) is
unhealthy, and its component `pleasure` sits exactly at the 0.2
threshold, yet the diagnosis is the unknown one, not goal divergence —
the source compares strictly, so a component exactly at its threshold
does not select its diagnosis. -/
theorem C9_counterexample :
    PADTelemetry.is_healthy ⟨0.2, 0, 0.5⟩ = false ∧
    diagnose_failure ⟨0.2, 0, 0.5⟩ = "Unknown failure mode" ∧
    "Unknown failure mode" ≠ "Low goal alignment - task divergence detected" := by
  refine ⟨?_, ?_, by decide⟩
  · have h : ¬((0.2:ℚ) > 0.2) := by norm_num
    simp [PADTelemetry.is_healthy, h]
  · unfold diagnose_failure
    rw [if_neg (by norm_num), if_neg (by norm_num), if_neg (by norm_num)]

/-- Claim C9 (amended): the diagnosis is chosen by first match with
STRICT comparisons — pleasure < 0.2 gives goal divergence; else
arousal > 0.8 gives the stalling diagnosis; else dominance < 0.3 gives
the uncertainty diagnosis; else the unknown diagnosis.  A component
exactly at its threshold does not select its diagnosis. -/
theorem C9_diagnosis_precedence (pad : PADTelemetry) :
    (pad.pleasure < 0.2 →
      diagnose_failure pad = "Low goal alignment - task divergence detected") ∧
    (0.2 ≤ pad.pleasure → 0.8 < pad.arousal →
      diagnose_failure pad = "High arousal - agent stalling or infinite retry loop") ∧
    (0.2 ≤ pad.pleasure → pad.arousal ≤ 0.8 → pad.dominance < 0.3 →
      diagnose_failure pad = "Low dominance - agent showing excessive uncertainty") ∧
    (0.2 ≤ pad.pleasure → pad.arousal ≤ 0.8 → 0.3 ≤ pad.dominance →
      diagnose_failure pad = "Unknown failure mode") := by
  unfold diagnose_failure
  refine ⟨fun h => ?_, fun h h' => ?_, fun h h' h'' => ?_, fun h h' h'' => ?_⟩
  · rw [if_pos h]
  · rw [if_neg (not_lt.2 h), if_pos h']
  · rw [if_neg (not_lt.2 h), if_neg (not_lt.2 h'), if_pos h'']
  · rw [if_neg (not_lt.2 h), if_neg (not_lt.2 h'), if_neg (not_lt.2 h'')]

/-- Witness for C9: a vector below every threshold gets the
goal-divergence diagnosis first, exercising the precedence. -/
theorem C9_diagnosis_precedence_witness :
    diagnose_failure ⟨0.1, 0.9, 0.1⟩ = "Low goal alignment - task divergence detected" :=
  (C9_diagnosis_precedence ⟨0.1, 0.9, 0.1⟩).1 (by norm_num)

/-- An already-completed worker used against the kill claims. -/
def c1_intern : InternAgent :=
  { agent_id := "a", specialty := "code", manager_id := "m", state := .completed }

/-- Claim C1 counterexample: killing an already-terminal (Completed)
worker is NOT a no-op — the state changes to Killed, and killing twice
leaves two (not one) terminal output events in the history. -/
theorem C1_counterexample :
    (c1_intern.kill 0 "r").state ≠ c1_intern.state ∧
    ((c1_intern.kill 0 "r").kill 1 "r").output_buffer.length = 2 ∧
    countTerminal ((c1_intern.kill 0 "r").kill 1 "r").output_buffer = 2 := by
  refine ⟨?_, rfl, rfl⟩
  simp [c1_intern, InternAgent.kill]

/-- Claim C1 (amended): `kill` is not idempotent: every call, on any
worker in any state, sets the state to Killed and appends one more
terminal output event, so two kill calls (on a worker whose history is
not near the 100-event capacity) add exactly two terminal events. -/
theorem C1_kill_not_idempotent (i : InternAgent) (t₁ t₂ : ℚ) (r₁ r₂ : String)
    (h : i.output_buffer.length ≤ 98) :
    ((i.kill t₁ r₁).kill t₂ r₂).state = .killed ∧
    countTerminal ((i.kill t₁ r₁).kill t₂ r₂).output_buffer =
      countTerminal i.output_buffer + 2 := by
  refine ⟨rfl, ?_⟩
  simp only [InternAgent.kill]
  rw [pushEvent_of_le i.output_buffer _ (by omega),
      pushEvent_of_le _ _ (by simp only [List.length_append, List.length_singleton]; omega)]
  simp [countTerminal, List.filter_append]

/-- Witness for C1 (amended): double kill on a concrete completed worker
with empty history yields state Killed and exactly two terminal
events. -/
theorem C1_kill_not_idempotent_witness :
    ((c1_intern.kill 0 "a").kill 1 "b").state = .killed ∧
    countTerminal ((c1_intern.kill 0 "a").kill 1 "b").output_buffer =
      countTerminal c1_intern.output_buffer + 2 :=
  C1_kill_not_idempotent c1_intern 0 1 "a" "b" (by decide)

/-- Claim C10: `execute_task` unconditionally forces the worker into
Running at entry (whatever its previous state, terminal states included)
and runs the task to Completed or Failed — terminal states do not block
re-execution of the same worker object. -/
theorem C10_execute_ignores_terminal (i : InternAgent) (task : Task) (now : ℚ) :
    (i.execute_task_entry task now).state = .running ∧
    ((i.execute_task task now).2.state = .completed ∨
     (i.execute_task task now).2.state = .failed) := by
  refine ⟨rfl, ?_⟩
  simp only [InternAgent.execute_task]
  split
  · right; rfl
  · left; rfl

/-- Claim C6: spawning on a supervisor already at capacity fails with
the capacity error and leaves the supervisor (hence the worker count)
unchanged; spawning below capacity succeeds and increases the worker
count by exactly one. -/
theorem C6_spawn_capacity (m : EROSManager) (s : String) :
    (m.max_interns ≤ m.interns.length →
      (m.spawn_intern s).1 = Except.error ("Manager " ++ m.manager_id ++ " at capacity") ∧
      (m.spawn_intern s).2 = m) ∧
    (m.interns.length < m.max_interns →
      (∃ i, (m.spawn_intern s).1 = Except.ok i) ∧
      (m.spawn_intern s).2.interns.length = m.interns.length + 1) := by
  constructor
  · intro h
    simp [EROSManager.spawn_intern, if_pos h]
  · intro h
    have h' : ¬(m.max_interns ≤ m.interns.length) := by omega
    simp [EROSManager.spawn_intern, if_neg h']

/-- A supervisor at its default capacity of 10 workers. -/
def c6_full_manager : EROSManager :=
  { manager_id := "m",
    interns := List.replicate 10 { agent_id := "x", specialty := "s", manager_id := "m" } }

/-- A fresh supervisor owning no workers. -/
def c6_empty_manager : EROSManager := { manager_id := "m" }

/-- Witness for C6: a full supervisor is left unchanged by a failing
spawn; an empty one ends up with exactly one worker. -/
theorem C6_spawn_capacity_witness :
    (c6_full_manager.spawn_intern "w").2 = c6_full_manager ∧
    (c6_empty_manager.spawn_intern "w").2.interns.length = 1 :=
  ⟨((C6_spawn_capacity c6_full_manager "w").1 (by decide)).2,
   ((C6_spawn_capacity c6_empty_manager "w").2 (by decide)).2⟩

/-- A supervisor and a failed worker (with a task) used against the
respawn claim. -/
def c7_mgr : EROSManager := { manager_id := "m" }

/-- The failed worker fixture for the respawn claim. -/
def c7_failed : InternAgent :=
  { agent_id := "f0", specialty := "code", manager_id := "m", state := .failed,
    task := some { id := some "t1", goal := some "build" } }

/-- Claim C7 (code bug): `respawn_with_correction` does build the
corrected task (copy of the failed task plus correction text plus
provenance link), and the new worker has the right specialty and is not
started — but the corrected task is never attached: the new worker's
task is `none`, contradicting the documented intent that the respawned
worker carries the corrected task. -/
theorem C7_correction_dropped :
    (c7_mgr.respawn_with_correction c7_failed "fix").1.toOption.map
        (fun i => (i.task, i.specialty, i.state)) =
      some (none, "code", AgentState.idle) ∧
    corrected_task_of c7_failed "fix" =
      some { id := some "t1", goal := some "build",
             context_correction := some "fix", previous_attempt := some "f0" } := by
  constructor <;> rfl

/-- Counting interns by a predicate on their lifecycle state only
depends on the list of states. -/
theorem countP_of_states (p : AgentState → Bool) (l₁ l₂ : List InternAgent)
    (h : l₁.map (fun i => i.state) = l₂.map (fun i => i.state)) :
    l₁.countP (fun i => p i.state) = l₂.countP (fun i => p i.state) := by
  have h₁ : l₁.countP (fun i => p i.state) =
      (l₁.map (fun i => i.state)).countP p := by
    rw [List.countP_map]
    rfl
  have h₂ : l₂.countP (fun i => p i.state) =
      (l₂.map (fun i => i.state)).countP p := by
    rw [List.countP_map]
    rfl
  rw [h₁, h₂, h]

/-- Claim C2: the status pulse is a function of the interns' lifecycle
states and the intervention-log length alone — two supervisors that
agree on those (and on their id), however their workers' output
contents and task goal texts differ, produce identical summaries at the
same instant.  In particular no output content or goal text can reach
the summary. -/
theorem C2_pulse_hides_content (now : ℚ) (m₁ m₂ : EROSManager)
    (hid : m₁.manager_id = m₂.manager_id)
    (hlog : m₁.status_log.length = m₂.status_log.length)
    (hstates : m₁.interns.map (fun i => i.state) = m₂.interns.map (fun i => i.state)) :
    m₁.get_status_pulse now = m₂.get_status_pulse now := by
  have hlen : m₁.interns.length = m₂.interns.length := by
    have := congrArg List.length hstates
    simpa using this
  have c1 := countP_of_states (fun s => s == AgentState.running) _ _ hstates
  have c2 := countP_of_states (fun s => s == AgentState.completed) _ _ hstates
  have c3 := countP_of_states
    (fun s => s == AgentState.failed || s == AgentState.killed) _ _ hstates
  simp only [EROSManager.get_status_pulse]
  rw [hid, hlog, hlen, c1, c2, c3]

/-- A supervisor whose single running worker has a secret goal and
secret output content. -/
def c2_mgr_a : EROSManager :=
  { manager_id := "m",
    interns := [{ agent_id := "a0", specialty := "code", manager_id := "m",
                  state := .running,
                  output_buffer := [{ timestamp := 0, content := "SECRET OUTPUT" }],
                  task := some { goal := some "SECRET GOAL" } }] }

/-- The same supervisor with all output content and goal text replaced. -/
def c2_mgr_b : EROSManager :=
  { manager_id := "m",
    interns := [{ agent_id := "a0", specialty := "code", manager_id := "m",
                  state := .running,
                  output_buffer := [],
                  task := some { goal := some "other" } }] }

/-- Witness for C2: the two fixture supervisors differ only in output
contents and goal texts and get identical status pulses. -/
theorem C2_pulse_hides_content_witness :
    c2_mgr_a.get_status_pulse 0 = c2_mgr_b.get_status_pulse 0 :=
  C2_pulse_hides_content 0 c2_mgr_a c2_mgr_b rfl rfl rfl

/-- Claim C3: the strategic decision sums the five counts across the
summaries, computes the two rates (0 when there are no interns,
completed/total and failed/total otherwise), and picks the action by
priority: failure rate above 0.3 pauses (even when the completion
threshold is also met); otherwise completion rate above 0.8 advances;
otherwise (including completion rate exactly 0.8) it continues
monitoring. -/
theorem C3_strategic_decision_rule (now : ℚ) (turn : Nat) (pulses : List StatusPulse) :
    (make_strategic_decision now turn pulses).metrics =
      { total_interns := (pulses.map (fun p => p.interns_total)).sum,
        active := (pulses.map (fun p => p.interns_active)).sum,
        completed := (pulses.map (fun p => p.interns_completed)).sum,
        failed := (pulses.map (fun p => p.interns_failed)).sum,
        completion_rate := aggregate_completion_rate pulses,
        failure_rate := aggregate_failure_rate pulses,
        interventions := (pulses.map (fun p => p.interventions)).sum } ∧
    ((pulses.map (fun p => p.interns_total)).sum = 0 →
      aggregate_completion_rate pulses = 0 ∧ aggregate_failure_rate pulses = 0) ∧
    (0 < (pulses.map (fun p => p.interns_total)).sum →
      aggregate_completion_rate pulses =
        ((((pulses.map (fun p => p.interns_completed)).sum : ℕ)) : ℚ) /
          ((((pulses.map (fun p => p.interns_total)).sum : ℕ)) : ℚ) ∧
      aggregate_failure_rate pulses =
        ((((pulses.map (fun p => p.interns_failed)).sum : ℕ)) : ℚ) /
          ((((pulses.map (fun p => p.interns_total)).sum : ℕ)) : ℚ)) ∧
    (0.3 < aggregate_failure_rate pulses →
      (make_strategic_decision now turn pulses).action = "PAUSE_AND_RECALIBRATE") ∧
    (aggregate_failure_rate pulses ≤ 0.3 → 0.8 < aggregate_completion_rate pulses →
      (make_strategic_decision now turn pulses).action = "ADVANCE_PHASE") ∧
    (aggregate_failure_rate pulses ≤ 0.3 → aggregate_completion_rate pulses ≤ 0.8 →
      (make_strategic_decision now turn pulses).action = "CONTINUE_MONITORING") := by
  refine ⟨?_, ?_, ?_, ?_, ?_, ?_⟩
  · simp only [make_strategic_decision]
    split_ifs <;> rfl
  · intro h
    simp only [aggregate_completion_rate, aggregate_failure_rate]
    rw [h]
    norm_num
  · intro h
    simp only [aggregate_completion_rate, aggregate_failure_rate]
    rw [if_pos h, if_pos h]
    exact ⟨rfl, rfl⟩
  · intro h
    simp only [make_strategic_decision]
    rw [if_pos h]
  · intro h h'
    simp only [make_strategic_decision]
    rw [if_neg (not_lt.2 h), if_pos h']
  · intro h h'
    simp only [make_strategic_decision]
    rw [if_neg (not_lt.2 h), if_neg (not_lt.2 h')]

/-- A summary with 10 workers, 8 completed, none failed: completion
rate exactly 0.8. -/
def c3_pulse : StatusPulse :=
  { manager_id := "m", timestamp := 0, interns_total := 10, interns_active := 2,
    interns_completed := 8, interns_failed := 0, interventions := 1, health := "healthy" }

/-- Witness for C3: completion rate exactly 0.8 (8 of 10, none failed)
does not advance the phase — the decision is CONTINUE_MONITORING. -/
theorem C3_strategic_decision_rule_witness :
    (make_strategic_decision 0 0 [c3_pulse]).action = "CONTINUE_MONITORING" := by
  have h := C3_strategic_decision_rule 0 0 [c3_pulse]
  exact h.2.2.2.2.2 (by norm_num [aggregate_failure_rate, c3_pulse])
    (by norm_num [aggregate_completion_rate, c3_pulse])

/-- Fixture supervisor (simulated variant) for the timeout claim. -/
def c8_core_mgr : EROSManager := { manager_id := "m" }

/-- Fixture supervisor (live-backend variant) for the timeout claim. -/
def c8_kimi_mgr : KimiEROSManager := { manager_id := "m" }

/-- A running worker with a task, started at time 10, with empty output
history. -/
def c8_intern : InternAgent :=
  { agent_id := "a", specialty := "code", manager_id := "m", state := .running,
    output_buffer := [], task := some { goal := some "g" }, start_time := some 10 }

/-- Claim C8 counterexample: at time 700 the fixture worker has been
running for 690 > 600 seconds, yet the simulated supervisor's
monitoring pass (`EROSManager.monitor_intern`, which has no max-runtime
watchdog) returns no alert at all — not a TIMEOUT flag. -/
theorem C8_counterexample :
    c8_intern.state = AgentState.running ∧
    (600 : ℚ) < 700 - 10 ∧
    c8_core_mgr.monitor_intern 700 c8_intern = none := by
  refine ⟨rfl, by norm_num, ?_⟩
  have h1 : ¬((700:ℚ) - 10 < 30) := by norm_num
  have h2 : ((10:ℚ) ≠ 0) := by norm_num
  simp [EROSManager.monitor_intern, c8_intern, truthyTime,
    InternAgent.get_recent_output, h1, h2]

/-- Claim C8 (amended): the live-backend supervisor
(`KimiEROSManager.monitor_intern`) flags every Running worker whose
runtime exceeds 600 seconds with a TIMEOUT alert, regardless of health
score and even with empty output history; the simulated supervisor
(`EROSManager.monitor_intern`) has no such watchdog. -/
theorem C8_kimi_timeout (m : KimiEROSManager) (i : InternAgent) (now st : ℚ)
    (hrun : i.state = .running) (hst : i.start_time = some st) (h0 : st ≠ 0)
    (h600 : 600 < now - st) :
    m.monitor_intern now i =
      some { manager_id := m.manager_id, intern_id := i.agent_id,
             alert := "TIMEOUT", telemetry := ⟨0, 1, 0⟩,
             reason := "Agent exceeded 10-minute execution timeout",
             timestamp := now } := by
  simp [KimiEROSManager.monitor_intern, hrun, hst, truthyTime, h0, h600]

/-- Witness for C8 (amended): the fixture worker (running since 10,
empty output) is flagged TIMEOUT by the live-backend supervisor at time
700. -/
theorem C8_kimi_timeout_witness :
    c8_kimi_mgr.monitor_intern 700 c8_intern =
      some { manager_id := "m", intern_id := "a",
             alert := "TIMEOUT", telemetry := ⟨0, 1, 0⟩,
             reason := "Agent exceeded 10-minute execution timeout",
             timestamp := 700 } :=
  C8_kimi_timeout c8_kimi_mgr c8_intern 700 10 rfl rfl (by norm_num) (by norm_num)

end Eros
